import Mathlib

/-!
Verification of the Trigger-Update Pipeline of OSS goEcommerce.

This development shallowly embeds the pipeline components of the repository:

* `app/utils/decrypt_utils.py`      — `decrypt_from_n8n_format` (AES primitives abstracted)
* `app/services/decrypt_service.py` — `fix_trigger_structure`, `format_sql_for_execution`
* `app/services/database_service.py`— `_split_sql_batches`, `_analyze_sql_error`, `execute_query`
* `app/services/trigger_endpoint_service.py` — `fetch_and_execute_trigger`

Strings are modelled as `List Char` (Python `str` is a sequence of code points).
External collaborators (pyodbc connection, HTTP via `requests`, the AES cipher)
are abstracted as outcome-valued environment functions; everything else is a
direct translation of the Python control flow.
-/

namespace OssGo

/-- Python whitespace predicate: the set of code points for which Python's
`str.isspace` holds and which `str.strip()` and the regex class `\s`
(with the default Unicode semantics for `str` patterns) remove. -/
def pyIsSpace (c : Char) : Bool :=
  let n := c.toNat
  (9 ≤ n && n ≤ 13) || (28 ≤ n && n ≤ 31) || n = 32 || n = 0x85 || n = 0xA0 ||
  n = 0x1680 || (0x2000 ≤ n && n ≤ 0x200A) || n = 0x2028 || n = 0x2029 ||
  n = 0x202F || n = 0x205F || n = 0x3000

/-- Python `str.strip()`: drop whitespace from both ends. -/
def pyStrip (l : List Char) : List Char :=
  List.rdropWhile pyIsSpace (List.dropWhile pyIsSpace l)

/-- Python `str.rstrip()`: drop whitespace from the right end only. -/
def pyRstrip (l : List Char) : List Char :=
  List.rdropWhile pyIsSpace l

/-- ASCII lower-casing of a character, used to model `re.IGNORECASE` matching
of the ASCII keywords (`GO`, `AS`, `BEGIN`, …) appearing in the source's
patterns. -/
def lowerAscii (c : Char) : Char :=
  if c.toNat ≥ 65 && c.toNat ≤ 90 then Char.ofNat (c.toNat + 32) else c

/-- ASCII upper-casing of a character, used to model Python `str.upper()`
on the ASCII SQL keywords the source compares against. -/
def upperAscii (c : Char) : Char :=
  if c.toNat ≥ 97 && c.toNat ≤ 122 then Char.ofNat (c.toNat - 32) else c

/-- Case-insensitive character comparison (ASCII folding): equal code
points, or one is the upper-case ASCII letter of the other.  This is
`lowerAscii a = lowerAscii b` in a form convenient for reasoning. -/
def charCI (a b : Char) : Bool :=
  a.toNat = b.toNat ||
  (65 ≤ a.toNat && a.toNat ≤ 90 && a.toNat + 32 = b.toNat) ||
  (65 ≤ b.toNat && b.toNat ≤ 90 && b.toNat + 32 = a.toNat)

/-- Match a literal keyword case-insensitively at the head of `l`, returning
the rest of the list on success. -/
def matchCI : List Char → List Char → Option (List Char)
  | [], l => some l
  | _ :: _, [] => none
  | k :: ks, c :: cs => if charCI k c then matchCI ks cs else none

/-- Word character for the regex metacharacter `\b` / `\w` (ASCII letters,
digits and underscore; the Python patterns in the source are only ever
applied to ASCII SQL keywords, where this coincides with Python's `\w`). -/
def isWordChar (c : Char) : Bool := c.isAlphanum || c = '_'

/-- A `\b` word boundary holds before the current position given the
preceding character (`none` at the start of the text). -/
def boundaryOk : Option Char → Bool
  | none => true
  | some c => !isWordChar c

/-- Python `"...".split('\n')` on a character list: always returns at least
one (possibly empty) line; a trailing newline yields a trailing empty line. -/
def splitLines : List Char → List (List Char)
  | [] => [[]]
  | c :: rest =>
    if c = '\n' then [] :: splitLines rest
    else
      match splitLines rest with
      | [] => [[c]]
      | h :: t => (c :: h) :: t

/-- Python `'\n'.join(...)` on character-list lines. -/
def joinLines : List (List Char) → List Char
  | [] => []
  | [x] => x
  | x :: xs => x ++ '\n' :: joinLines xs

/-!
Batch splitting: `DatabaseService._split_sql_batches`
(`app/services/database_service.py`, lines 732-777).
-/

/-- The separator test `re.match(r'^\s*GO\s*;?\s*$', line, re.IGNORECASE)`
from `_split_sql_batches`: optional whitespace, `GO` (case-insensitive),
optional whitespace, an optional semicolon, optional whitespace, end. -/
def isGoSepLine (line : List Char) : Bool :=
  match (line.dropWhile pyIsSpace) with
  | g :: o :: rest =>
    charCI g 'g' && charCI o 'o' &&
      (match rest.dropWhile pyIsSpace with
       | [] => true
       | ';' :: rest2 => (rest2.dropWhile pyIsSpace).isEmpty
       | _ => false)
  | _ => false

/-- A non-empty accumulated batch is flushed after joining and stripping;
blank batches are dropped (`if batch_text:` in the source). -/
def flushBatch (cur : List (List Char)) : List (List Char) :=
  if cur = [] then []
  else if pyStrip (joinLines cur) = [] then []
  else [pyStrip (joinLines cur)]

/-- Line loop of `_split_sql_batches`: separator lines flush the current
batch, other lines are appended to it. -/
def batchesGo : List (List Char) → List (List Char) → List (List Char) → List (List Char)
  | [], cur, acc => acc ++ flushBatch cur
  | line :: rest, cur, acc =>
    if isGoSepLine line then batchesGo rest [] (acc ++ flushBatch cur)
    else batchesGo rest (cur ++ [line]) acc

/-- Translation of `DatabaseService._split_sql_batches`: split a SQL text into batches at
separator lines; if no batch was produced, fall back to the whole stripped
query (when non-blank). -/
def split_sql_batches (q : List Char) : List (List Char) :=
  if batchesGo (splitLines q) [] [] = [] then
    (if pyStrip q = [] then [] else [pyStrip q])
  else batchesGo (splitLines q) [] []

/-!
SQL normalization: `DecryptService.format_sql_for_execution`
(`app/services/decrypt_service.py`, lines 295-331).
-/

/-- Characters removed by the control-character regex
`[\x00-\x08\x0B-\x0C\x0E-\x1F\x7F]` of `format_sql_for_execution`. -/
def ctrlRemoved (c : Char) : Bool :=
  c.toNat ≤ 8 || c.toNat = 0x0B || c.toNat = 0x0C ||
  (0x0E ≤ c.toNat && c.toNat ≤ 0x1F) || c.toNat = 0x7F

/-- Characters removed by the zero-width regex `[\u200B-\u200D\uFEFF]` (zero-width space/non-joiner/joiner and BOM). -/
def zwRemoved (c : Char) : Bool :=
  (0x200B ≤ c.toNat && c.toNat ≤ 0x200D) || c.toNat = 0xFEFF

/-- A character survives both removal regexes. -/
def keepChar (c : Char) : Bool := !ctrlRemoved c && !zwRemoved c

/-- The leading byte-order-mark step: `if sql.startswith('\uFEFF'): sql = sql[1:].strip()`. -/
def bomDrop (l : List Char) : List Char :=
  match l with
  | [] => []
  | c :: rest => if c = '\uFEFF' then pyStrip rest else c :: rest

/-- Translation of `DecryptService.format_sql_for_execution`: strip, drop a leading BOM,
remove control and zero-width characters, strip again.  Blank input yields
the empty string. -/
def format_sql_for_execution (s : List Char) : List Char :=
  if s = [] || pyStrip s = [] then []
  else
    pyStrip (((bomDrop (pyStrip s)).filter (fun c => !ctrlRemoved c)).filter
      (fun c => !zwRemoved c))

/-!
Decryption: `decrypt_from_n8n_format` (`app/utils/decrypt_utils.py`,
lines 14-124).  The cryptographic primitives (SHA-256, base64, the AES-CBC
block cipher, UTF-8 decoding) are abstracted as an environment of
outcome-valued functions; the control flow, validation and exception
conversion of the Python function are translated directly.
-/

/-- Python exception classes relevant to `decrypt_from_n8n_format`:
`ValueError`, `UnicodeDecodeError` (caught separately in the source) and
any other exception class. -/
inductive PyExc where
  | valueError (msg : String)
  | unicodeError (msg : String)
  | otherError (msg : String)
deriving DecidableEq

/-- Message carried by an exception (`str(e)` in the source). -/
def PyExc.msg : PyExc → String
  | .valueError m => m
  | .unicodeError m => m
  | .otherError m => m

/-- Abstracted cryptographic primitives used by `decrypt_from_n8n_format`.
Bytes are modelled as natural numbers (values below 256 in any faithful
instantiation; only equality and order on the padding byte are used). -/
structure CryptoPrims where
  sha256 : String → List Nat
  b64decode : String → Except PyExc (List Nat)
  aesDecrypt : List Nat → List Nat → List Nat → Except PyExc (List Nat)
  utf8decode : List Nat → Except PyExc String

/-- One n8n item as seen by the Python function: a value that may or may
not be a dict, with an optional `json` wrapper and optional `iv` /
`encrypted` fields (where `none` models an absent key and `some ""` an
empty, hence falsy, value). -/
structure N8nItem where
  isDict : Bool
  pyType : String
  hasJsonKey : Bool
  jsonValIsDict : Bool
  jsonValType : String
  iv : Option String
  encrypted : Option String
deriving DecidableEq

/-- Python falsiness of `dict.get(...)` results for string fields. -/
def strOptFalsy : Option String → Bool
  | none => true
  | some s => s = ""

/-- PKCS#7 unpadding exactly as in lines 93-107 of `decrypt_utils.py`:
the last byte is the padding length; it must lie in `1..16` and the last
`pad_len` bytes must all equal it.  `padded_text[-1]` on an empty byte
string raises an `IndexError` (not a `ValueError`). -/
def unpadPkcs7 (padded : List Nat) : Except PyExc (List Nat) :=
  match padded.getLast? with
  | none => .error (.otherError "index out of range")
  | some padLen =>
    if padLen < 1 || padLen > 16 then
      .error (.valueError ("Ungültige Padding-Länge: " ++ Nat.repr padLen))
    else if !((padded.drop (padded.length - padLen)).all (fun b => b = padLen)) then
      .error (.valueError "Ungültiges Padding-Format")
    else .ok (padded.take (padded.length - padLen))

/-- Processing of a single item inside the `for item in items` loop. -/
def decryptItem (prims : CryptoPrims) (key : List Nat) (item : N8nItem) :
    Except PyExc String :=
  if !item.isDict then
    .error (.valueError ("Item ist kein Dictionary: " ++ item.pyType))
  else if item.hasJsonKey && !item.jsonValIsDict then
    .error (.valueError ("Daten sind kein Dictionary: " ++ item.jsonValType))
  else if strOptFalsy item.iv then .error (.valueError "IV fehlt im Item")
  else if strOptFalsy item.encrypted then
    .error (.valueError "encrypted Daten fehlen im Item")
  else
    match prims.b64decode (item.iv.getD "") with
    | .error e => .error (.valueError ("Base64-Decodierung fehlgeschlagen: " ++ e.msg))
    | .ok decodedIv =>
      match prims.b64decode (item.encrypted.getD "") with
      | .error e => .error (.valueError ("Base64-Decodierung fehlgeschlagen: " ++ e.msg))
      | .ok decodedEnc =>
        if decodedIv.length ≠ 16 then
          .error (.valueError ("Ungültige IV-Größe: " ++ Nat.repr decodedIv.length ++
            " (erwartet: 16)"))
        else
          match prims.aesDecrypt key decodedIv decodedEnc with
          | .error e => .error e
          | .ok padded =>
            match unpadPkcs7 padded with
            | .error e => .error e
            | .ok bytes => prims.utf8decode bytes

/-- The item loop: first failure aborts, successes are collected in order. -/
def decryptItems (prims : CryptoPrims) (key : List Nat) :
    List N8nItem → Except PyExc (List String)
  | [] => .ok []
  | item :: rest =>
    match decryptItem prims key item with
    | .error e => .error e
    | .ok s =>
      match decryptItems prims key rest with
      | .error e => .error e
      | .ok ss => .ok (s :: ss)

/-- The `except` chain at the end of `decrypt_from_n8n_format`:
a `UnicodeDecodeError` is wrapped with a prefix, a `ValueError` is
re-raised unchanged, anything else becomes a generic `ValueError`. -/
def pyExcToValueError : PyExc → PyExc
  | .unicodeError m => .valueError ("UTF-8 Decodierung fehlgeschlagen: " ++ m)
  | .valueError m => .valueError m
  | .otherError m => .valueError ("Entschlüsselungsfehler: " ++ m)

/-- Translation of `decrypt_from_n8n_format(items, password)`: validate the argument
list and password, derive the key, decrypt every item and join the parts. -/
def decrypt_from_n8n_format (prims : CryptoPrims) (items : List N8nItem)
    (password : String) : Except PyExc String :=
  if items.isEmpty then .error (.valueError "Items-Liste ist leer")
  else if password = "" then .error (.valueError "Passwort darf nicht leer sein")
  else
    match decryptItems prims (prims.sha256 password) items with
    | .ok parts => .ok (String.join parts)
    | .error e => .error (pyExcToValueError e)

/-!
Trigger repair: `DecryptService.fix_trigger_structure`
(`app/services/decrypt_service.py`, lines 175-293).

The Python function drives three steps from regular expressions; each
regex is translated here into an equivalent deterministic scanner (the
patterns admit exactly one match end at a given start position, see the
comments on the individual scanners).  `re.IGNORECASE`, `\b`, `\w` and
`\s` are modelled with ASCII case folding, `isWordChar` and `pyIsSpace`;
the patterns only name ASCII SQL keywords, where these agree with
Python's Unicode-aware classes.
-/

/-- Match of `CREATE\s+TRIGGER` (case-insensitive) at the current
position: `CREATE`, at least one whitespace, `TRIGGER`. -/
def matchCreateTriggerAt (l : List Char) : Bool :=
  match matchCI "create".data l with
  | none => false
  | some r =>
    match r with
    | c :: _ => pyIsSpace c && (matchCI "trigger".data (r.dropWhile pyIsSpace)).isSome
    | [] => false

/-- Model of `re.search` without boundary context: try the pattern at every
position (including the end of the text). -/
def searchAny (p : List Char → Bool) : List Char → Bool
  | [] => p []
  | c :: rest => p (c :: rest) || searchAny p rest

/-- Model of `re.search(r'CREATE\s+TRIGGER', text, re.IGNORECASE)`. -/
def containsCreateTrigger (l : List Char) : Bool :=
  searchAny matchCreateTriggerAt l

/-- Model of `re.search` for patterns needing the preceding character (for `\b`). -/
def searchWithPrev (p : Option Char → List Char → Bool) :
    Option Char → List Char → Bool
  | prev, [] => p prev []
  | prev, c :: rest => p prev (c :: rest) || searchWithPrev p (some c) rest

/-- A `\b` word boundary holds after the just-matched keyword. -/
def boundaryAfter (l : List Char) : Bool :=
  match l with
  | [] => true
  | c :: _ => !isWordChar c

/-- Match of `\bAS\s+BEGIN\b` at the current position. -/
def matchAsBeginAt (prev : Option Char) (l : List Char) : Bool :=
  boundaryOk prev &&
  (match matchCI "as".data l with
   | some r =>
     (match r with
      | c :: _ =>
        pyIsSpace c &&
        (match matchCI "begin".data (r.dropWhile pyIsSpace) with
         | some r2 => boundaryAfter r2
         | none => false)
      | [] => false)
   | none => false)

/-- Model of `re.search(r'\bAS\s+BEGIN\b', text, re.IGNORECASE)`: the guard under
which both substitution steps are skipped. -/
def hasAsBegin (l : List Char) : Bool :=
  searchWithPrev matchAsBeginAt none l

/-- The lookahead `(?=\s+DECLARE\b|\s+BEGIN\s+DECLARE|\s+IF\b)` of the
inline-`SET` pattern, tested at one position. -/
def lookahead1 (l : List Char) : Bool :=
  match l with
  | [] => false
  | c :: _ =>
    pyIsSpace c &&
    (let r := l.dropWhile pyIsSpace
     (match matchCI "declare".data r with
      | some r2 => boundaryAfter r2
      | none => false) ||
     (match matchCI "begin".data r with
      | some r2 =>
        (match r2 with
         | c2 :: _ => pyIsSpace c2 && (matchCI "declare".data (r2.dropWhile pyIsSpace)).isSome
         | [] => false)
      | none => false) ||
     (match matchCI "if".data r with
      | some r2 => boundaryAfter r2
      | none => false))

/-- Smallest number of characters to skip until `lookahead1` holds
(the lazy `.*?` before the lookahead). -/
def findLookahead1 : List Char → Option Nat
  | [] => none
  | c :: rest =>
    if lookahead1 (c :: rest) then some 0
    else (findLookahead1 rest).map (· + 1)

/-- Python `str.split(';')`. -/
def splitOnSemi : List Char → List (List Char)
  | [] => [[]]
  | c :: rest =>
    if c = ';' then [] :: splitOnSemi rest
    else
      match splitOnSemi rest with
      | [] => [[c]]
      | h :: t => (c :: h) :: t

/-- Python `stmt.upper().startswith('SET')`. -/
def upperStartsWithSet (stmt : List Char) : Bool :=
  match stmt with
  | a :: b :: c :: _ => upperAscii a = 'S' && upperAscii b = 'E' && upperAscii c = 'T'
  | _ => false

/-- The replacement function `fix_inline_set`: split the matched `SET`
statements at semicolons, keep the non-blank ones starting with `SET`,
and emit `AS`, `BEGIN` and the re-indented statements — or the whole
match unchanged when no `SET` statement was found. -/
def fixInlineSet (asText wsRun group2 : List Char) : List Char :=
  let setLines := (splitOnSemi (pyStrip group2)).filterMap (fun stmt0 =>
    let stmt := pyStrip stmt0
    if stmt ≠ [] && upperStartsWithSet stmt then
      some (List.replicate 4 ' ' ++ stmt ++ [';'])
    else none)
  if setLines ≠ [] then
    asText ++ '\n' :: "BEGIN".data ++ '\n' :: (joinLines setLines ++ ['\n'])
  else asText ++ wsRun ++ group2

/-- Match of pattern 1,
`(\bAS\b)\s+(SET\s+[^;]+?;.*?)(?=\s+DECLARE\b|\s+BEGIN\s+DECLARE|\s+IF\b)`
(with `re.IGNORECASE | re.DOTALL`), at the current position.  The match
is deterministic: the whitespace run after `AS` is maximal (whitespace
cannot start `SET`), the semicolon is necessarily the first one after
`SET` (`[^;]` cannot cross it, and at least one whitespace plus one
further character must precede it), and the lazy `.*?` ends at the first
position where the lookahead holds.  Returns the pieces
`(AS-text, whitespace-run, group 2, rest)`. -/
def tryMatch1 (prev : Option Char) (l : List Char) :
    Option (List Char × List Char × List Char × List Char) :=
  if !boundaryOk prev then none
  else
    match matchCI "as".data l with
    | none => none
    | some r0 =>
      match r0 with
      | [] => none
      | c0 :: _ =>
        if !pyIsSpace c0 then none
        else
          let r1 := r0.dropWhile pyIsSpace
          match matchCI "set".data r1 with
          | none => none
          | some r2 =>
            match r2 with
            | [] => none
            | c2 :: _ =>
              if !pyIsSpace c2 then none
              else
                match r2.findIdx? (fun c => c = ';') with
                | none => none
                | some k =>
                  if k < 2 then none
                  else
                    match findLookahead1 (r2.drop (k + 1)) with
                    | none => none
                    | some d =>
                      some (l.take 2, r0.take (r0.length - r1.length),
                        r1.take (3 + k + 1 + d), r1.drop (3 + k + 1 + d))

/-- The `re.sub` scan for pattern 1: non-overlapping matches left to right,
continuing after each match with the last consumed character as the
boundary context.  `fuel` bounds the scan steps (one character or one
match, each consuming at least one character, per step). -/
def sub1Go : Nat → Option Char → List Char → List Char
  | 0, _, l => l
  | fuel + 1, prev, l =>
    match l with
    | [] => []
    | c :: rest =>
      match tryMatch1 prev (c :: rest) with
      | some (asText, wsRun, group2, rest2) =>
        fixInlineSet asText wsRun group2 ++
          sub1Go fuel (some (group2.getLast?.getD ' ')) rest2
      | none => c :: sub1Go fuel (some c) rest

/-- Match of pattern 2, `(\bAS\b)\s*;?\s*\n\s*(SET\s+NOCOUNT|SET\s+ANSI)`
(with `re.IGNORECASE`), at the current position.  The gap after `AS` is
the maximal run of whitespace/semicolon characters (it must be followed
directly by `SET`); it matches `\s*;?\s*\n\s*` exactly when it holds at
most one semicolon and a newline after that semicolon (or any newline
when there is none).  Returns `(AS-text, gap, group 2, rest)`. -/
def tryMatch2 (prev : Option Char) (l : List Char) :
    Option (List Char × List Char × List Char × List Char) :=
  if !boundaryOk prev then none
  else
    match matchCI "as".data l with
    | none => none
    | some r0 =>
      if !boundaryAfter r0 then none
      else
        let gap := r0.takeWhile (fun c => pyIsSpace c || c = ';')
        let semiCount := (gap.filter (fun c => c = ';')).length
        let okGap :=
          if semiCount > 1 then false
          else if semiCount = 1 then (gap.dropWhile (fun c => c ≠ ';')).contains '\n'
          else gap.contains '\n'
        if !okGap then none
        else
          let rest1 := r0.drop gap.length
          match matchCI "set".data rest1 with
          | none => none
          | some r2 =>
            match r2 with
            | [] => none
            | c2 :: _ =>
              if !pyIsSpace c2 then none
              else
                let wsLen := r2.length - (r2.dropWhile pyIsSpace).length
                match matchCI "nocount".data (r2.dropWhile pyIsSpace) with
                | some _ =>
                  some (l.take 2, gap, rest1.take (3 + wsLen + 7),
                    r0.drop (gap.length + 3 + wsLen + 7))
                | none =>
                  match matchCI "ansi".data (r2.dropWhile pyIsSpace) with
                  | some _ =>
                    some (l.take 2, gap, rest1.take (3 + wsLen + 4),
                      r0.drop (gap.length + 3 + wsLen + 4))
                  | none => none

/-- The replacement function `fix_multiline_set`:
`AS`, newline, `BEGIN`, newline, four spaces and the matched group 2. -/
def fixMultilineSet (asText group2 : List Char) : List Char :=
  asText ++ '\n' :: "BEGIN".data ++ '\n' :: (List.replicate 4 ' ' ++ group2)

/-- The `re.sub` scan for pattern 2 (same regime as `sub1Go`). -/
def sub2Go : Nat → Option Char → List Char → List Char
  | 0, _, l => l
  | fuel + 1, prev, l =>
    match l with
    | [] => []
    | c :: rest =>
      match tryMatch2 prev (c :: rest) with
      | some (asText, _gap, group2, rest2) =>
        fixMultilineSet asText group2 ++
          sub2Go fuel (some (group2.getLast?.getD ' ')) rest2
      | none => c :: sub2Go fuel (some c) rest

/-- Model of `re.search(r'^\s*GO\s*$', line, re.IGNORECASE)`: the separator test
of the END-insertion loop (note: unlike `_split_sql_batches`, no
semicolon is allowed here). -/
def goLineNoSemi (line : List Char) : Bool :=
  match line.dropWhile pyIsSpace with
  | g :: o :: rest => charCI g 'g' && charCI o 'o' && (rest.dropWhile pyIsSpace).isEmpty
  | _ => false

/-- Match one keyword with `\b` on both sides at the current position. -/
def matchWordAt (kw : List Char) (prev : Option Char) (l : List Char) : Bool :=
  boundaryOk prev &&
  (match matchCI kw l with
   | some r => boundaryAfter r
   | none => false)

/-- Model of `re.search(r'\bKW\b', line, re.IGNORECASE)` for a keyword `KW`. -/
def containsWordCI (kw : List Char) (l : List Char) : Bool :=
  searchWithPrev (matchWordAt kw) none l

/-- Modification of the insertion line: append `END` after stripping
trailing whitespace, moving a trailing semicolon after the `END`. -/
def insertEndAt (line : List Char) : List Char :=
  if (pyStrip line).getLast? = some ';' then
    (pyRstrip line).dropLast ++ '\n' :: "END;".data
  else pyRstrip line ++ '\n' :: "END".data

/-- Backward scan `for j in range(i - 1, trigger_start_idx, -1)`: find the
nearest preceding non-blank, non-`GO` line and insert `END` there. -/
def insertEndScan (lines : Array (List Char)) (startIdx : Nat) :
    Nat → Array (List Char)
  | 0 => lines
  | j + 1 =>
    if j + 1 ≤ startIdx then lines
    else
      if pyStrip (lines.getD (j + 1) []) ≠ [] && !goLineNoSemi (lines.getD (j + 1) []) then
        lines.setD (j + 1) (insertEndAt (lines.getD (j + 1) []))
      else insertEndScan lines startIdx j

/-- The END-insertion line loop (lines 245-284 of the source): track
`in_trigger`, the trigger start line and the `BEGIN`/`END` counts; at a
`GO` line with surplus `BEGIN`s, insert an `END` on the nearest preceding
non-blank line.  `fuel` is the number of remaining iterations (the array
size never changes). -/
def endLoopGo : Nat → Array (List Char) → Nat → Bool → Nat → Nat → Nat → Array (List Char)
  | 0, lines, _, _, _, _, _ => lines
  | fuel + 1, lines, i, inTrig, startIdx, bc, ec =>
    if i < lines.size then
      if containsCreateTrigger (lines.getD i []) then
        endLoopGo fuel lines (i + 1) true i 0 0
      else if inTrig then
        let bc1 := if containsWordCI "begin".data (lines.getD i []) then bc + 1 else bc
        let ec1 := if containsWordCI "end".data (lines.getD i []) then ec + 1 else ec
        if goLineNoSemi (lines.getD i []) then
          endLoopGo fuel
            (if bc1 > ec1 then insertEndScan lines startIdx (i - 1) else lines)
            (i + 1) false 0 0 0
        else endLoopGo fuel lines (i + 1) true startIdx bc1 ec1
      else endLoopGo fuel lines (i + 1) false startIdx bc ec
    else lines

/-- Translation of `DecryptService.fix_trigger_structure`: no-op on blank input or when
no `CREATE TRIGGER` occurs; otherwise apply the two `AS`-repair
substitutions (each skipped when `AS BEGIN` is already present) and then
the END-insertion loop.  The final logging-only comparison of the source
is omitted. -/
def fix_trigger_structure (s : List Char) : List Char :=
  if s = [] || pyStrip s = [] then s
  else if !containsCreateTrigger s then s
  else
    joinLines (endLoopGo
      (splitLines (sub2OrSkip (sub1OrSkip s))).length
      (splitLines (sub2OrSkip (sub1OrSkip s))).toArray 0 false 0 0 0).toList
where
  /-- Pattern-1 substitution, skipped when `AS BEGIN` is present. -/
  sub1OrSkip (t : List Char) : List Char :=
    if hasAsBegin t then t else sub1Go t.length none t
  /-- Pattern-2 substitution, skipped when `AS BEGIN` is present. -/
  sub2OrSkip (t : List Char) : List Char :=
    if hasAsBegin t then t else sub2Go t.length none t

/-!
Database execution: `DatabaseService.execute_query` and
`DatabaseService._analyze_sql_error`
(`app/services/database_service.py`, lines 449-730).

The pyodbc connection is abstracted: the environment decides the outcome
of `pyodbc.connect`, of each `cursor.execute`/`fetchall`/`commit` round
for a batch, and of the final `connection.commit()`.  The
`handle_error(...)` calls of the source only log except in the generic
`except Exception` handler, whose returned `AppError.message` is modelled
by the environment function `genericMessage`.
-/

/-- Python `s[:n]` on a string. -/
def strTake (s : String) (n : Nat) : String := String.mk (s.data.take n)

/-- Contiguous-sublist test on character lists. -/
def listIsInfixOf (needle : List Char) : List Char → Bool
  | [] => needle.isEmpty
  | c :: rest => needle.isPrefixOf (c :: rest) || listIsInfixOf needle rest

/-- Substring test, Python `needle in hay`. -/
def pyContains (hay needle : String) : Bool := listIsInfixOf needle.data hay.data

/-- Python `str.lower()` (ASCII folding; the substrings compared against
are ASCII). -/
def pyLower (s : String) : String := String.mk (s.data.map lowerAscii)

/-- The `batch_num/total_batches` fragment of the classified messages. -/
def batchIdxText (bn tot : Nat) : String := Nat.repr bn ++ "/" ++ Nat.repr tot

/-- The `{sql_batch[:300]}{'...' if len(sql_batch) > 300 else ''}`
fragment. -/
def sqlTrunc (sqlBatch : String) : String :=
  strTake sqlBatch 300 ++ (if sqlBatch.data.length > 300 then "..." else "")

/-- Classification condition 1: authentication failure. -/
def authCond (errStr : String) : Bool :=
  pyContains errStr "18456" || pyContains (pyLower errStr) "login failed" ||
  pyContains (pyLower errStr) "authentifizierungsfehler"

/-- Classification condition 2: syntax error. -/
def synCond (errStr : String) : Bool :=
  pyContains errStr "42000" || pyContains errStr "102" || pyContains errStr "156" ||
  pyContains (pyLower errStr) "syntax"

/-- Classification condition 3: permission error. -/
def permCond (errStr : String) : Bool :=
  pyContains errStr "229" || pyContains errStr "230" || pyContains errStr "300" ||
  pyContains (pyLower errStr) "permission" || pyContains (pyLower errStr) "berechtigung" ||
  pyContains (pyLower errStr) "zugriff"

/-- Classification condition 4: object not found. -/
def objCond (errStr : String) : Bool :=
  pyContains errStr "208" || pyContains errStr "2812" ||
  (pyContains (pyLower errStr) "object" && pyContains (pyLower errStr) "not found")

/-- Authentication-failure message (branch 1 of `_analyze_sql_error`);
it carries neither the batch index nor the batch text. -/
def authMsgText (errStr : String) : String :=
  "❌ SQL Server Authentifizierungsfehler (Fehler 18456)\n\nDetails: " ++ errStr ++
  "\n\nMögliche Ursachen:\n  • Passwort ist falsch oder fehlt im Keyring\n" ++
  "  • Benutzername hat keine Berechtigung\n" ++
  "  • SQL Server Authentifizierung ist nicht aktiviert\n\n" ++
  "Lösung: Prüfen Sie die DB-Credentials über \u0027DB Credentials\u0027 im Dashboard."

/-- Prefix of the syntax-error message (branch 2 of `_analyze_sql_error`). -/
def synMsgPre : String := "❌ SQL-Syntaxfehler in Batch "

/-- Middle of the syntax-error message, between the batch index and the
truncated batch text. -/
def synMsgMid (errStr : String) (errCode : Option String) : String :=
  "\n\nFehlercode: " ++ errCode.getD "42000" ++ "\nDetails: " ++ errStr ++
  "\n\nHäufige Ursachen:\n  • Falsche Schreibweise von SQL-Befehlen\n" ++
  "  • Fehlende oder zusätzliche Leerzeichen\n" ++
  "  • Fehlende Klammern oder Anführungszeichen\n" ++
  "  • Fehlendes BEGIN nach AS in CREATE TRIGGER\n" ++
  "  • Fehlendes END vor GO\n\nFehlerhafter SQL-Batch:\n"

/-- Translation of `DatabaseService._analyze_sql_error`: the classified error message.
Every branch reproduces the f-string of the source. -/
def analyze_sql_error (errStr : String) (errCode : Option String) (sqlBatch : String)
    (batchNum totalBatches : Nat) : String :=
  if authCond errStr then authMsgText errStr
  else if synCond errStr then
    synMsgPre ++ batchIdxText batchNum totalBatches ++
      (synMsgMid errStr errCode ++ sqlTrunc sqlBatch)
  else if permCond errStr then
    "❌ Zugriffsverletzung / Berechtigungsfehler in Batch " ++
    batchIdxText batchNum totalBatches ++
    ("\n\nFehlercode: " ++ errCode.getD "229/230" ++ "\nDetails: " ++ errStr ++
     "\n\nDer Benutzer hat nicht die erforderlichen Berechtigungen:\n" ++
     "  • CREATE TRIGGER Berechtigung fehlt\n  • ALTER TABLE Berechtigung fehlt\n" ++
     "  • db_ddladmin Rolle fehlt\n\nLösung:\n  1. Führen Sie als Administrator aus:\n" ++
     "     GRANT ALTER ON OBJECT::[dbo].[tArtikel] TO [IhrBenutzer];\n" ++
     "     ALTER ROLE db_ddladmin ADD MEMBER [IhrBenutzer];\n" ++
     "  2. Oder verwenden Sie das Skript: grant_trigger_permissions.sql")
  else if objCond errStr then
    "❌ Objekt nicht gefunden in Batch " ++ batchIdxText batchNum totalBatches ++
    ("\n\nFehlercode: " ++ errCode.getD "208" ++ "\nDetails: " ++ errStr ++
     "\n\nDas angeforderte Objekt (Tabelle, Trigger, etc.) existiert nicht.\n" ++
     "Prüfen Sie:\n  • Objektname ist korrekt geschrieben\n  • Datenbank ist korrekt\n" ++
     "  • Schema ist korrekt (z.B. dbo.tArtikel)")
  else
    "❌ SQL Server-Fehler" ++
    (if totalBatches > 1 then " (Batch " ++ batchIdxText batchNum totalBatches ++ ")" else "") ++
    ("\n\nFehlercode: " ++ errCode.getD "Unbekannt" ++ "\nDetails: " ++ errStr ++
     "\n\nFehlerhafter SQL-Batch:\n" ++ sqlTrunc sqlBatch)

/-- Outcome of one `cursor.execute(batch)` round (including the nested
`fetchall`/`rowcount`/`commit` handling):
a result set, a DDL/DML row count (with per-batch commit), a
`pyodbc.ProgrammingError`, another `pyodbc.Error`, or a non-pyodbc
exception. -/
inductive BatchOutcome where
  | rows (rs : List Nat)
  | ddl (rowcount : Int)
  | progError (errStr : String) (code : Option String)
  | dbError (errStr : String) (code : Option String)
  | raisesOther (msg : String)
deriving DecidableEq

/-- Outcome of `pyodbc.connect` or of the final `connection.commit()`:
success, a `pyodbc.OperationalError`, another `pyodbc.Error`, or a
non-pyodbc exception. -/
inductive CallOutcome where
  | ok
  | opError (errStr : String) (code : Option String)
  | dbError (errStr : String) (code : Option String)
  | raisesOther (msg : String)
deriving DecidableEq

/-- Environment of `execute_query`: outcomes of the external pyodbc calls
(`batch i` is the outcome for the batch at 0-based position `i`) and the
`AppError.message` text produced by `handle_error` in the generic
handler. -/
structure DbEnv where
  connect : CallOutcome
  batch : Nat → BatchOutcome
  finalCommit : CallOutcome
  genericMessage : String → String

/-- Third component of the returned tuple on success: a result-set list or
a row count. -/
inductive ResVal where
  | rows (rs : List Nat)
  | count (n : Int)
deriving DecidableEq

/-- Observable result of one `execute_query` call, extended with the
number of `cursor.execute` calls made and the connection lifecycle
facts. -/
structure ExecResult where
  success : Bool
  message : String
  results : Option ResVal
  attempted : Nat
  connOpened : Bool
  connClosed : Bool
deriving DecidableEq

/-- Outcome of the `for i, batch in enumerate(batches, 1)` loop. -/
inductive LoopOut where
  | done (results : Option (List Nat)) (lastRowcount : Int) (executed attempted : Nat)
  | failedBatch (errStr : String) (code : Option String) (batch : List Char)
      (idx attempted : Nat)
  | raised (msg : String) (attempted : Nat)

/-- The batch loop: blank batches are skipped (`continue`), result sets
overwrite earlier ones, DDL row counts are recorded, the first pyodbc
error aborts with the 1-based index, and a non-pyodbc exception escapes. -/
def execLoop (env : DbEnv) : List (List Char) → Nat → Option (List Nat) → Int →
    Nat → Nat → LoopOut
  | [], _, results, lastRc, executed, attempted => .done results lastRc executed attempted
  | b :: rest, i, results, lastRc, executed, attempted =>
    if pyStrip b = [] then execLoop env rest (i + 1) results lastRc executed attempted
    else
      match env.batch i with
      | .rows rs => execLoop env rest (i + 1) (some rs) lastRc (executed + 1) (attempted + 1)
      | .ddl rc => execLoop env rest (i + 1) results rc (executed + 1) (attempted + 1)
      | .progError s c => .failedBatch s c (pyStrip b) (i + 1) (attempted + 1)
      | .dbError s c => .failedBatch s c (pyStrip b) (i + 1) (attempted + 1)
      | .raisesOther m => .raised m (attempted + 1)

/-- Success message of `execute_query` (lines 576-582). -/
def execDoneMessage (results : Option (List Nat)) (lastRc : Int) (executed : Nat) : String :=
  match results with
  | some rs => "Alle Batches erfolgreich ausgeführt - " ++ Nat.repr rs.length ++ " Ergebnisse"
  | none =>
    if lastRc > 0 then
      "Alle Batches erfolgreich ausgeführt - " ++ toString lastRc ++ " Zeilen betroffen"
    else "Alle " ++ Nat.repr executed ++ " Batch(es) erfolgreich ausgeführt"

/-- Translation of `DatabaseService.execute_query`: split the query into batches, open
one connection, run the loop, commit and close on success; per-batch
pyodbc errors close the connection and return the classified message; a
non-pyodbc exception reaches the generic handler, which returns failure
without closing the connection (lines 640-648 contain no cleanup). -/
def execute_query (env : DbEnv) (sqlQuery : String) : ExecResult :=
  let batches := split_sql_batches sqlQuery.data
  if batches = [] then
    { success := false, message := "Keine SQL-Befehle gefunden", results := none,
      attempted := 0, connOpened := false, connClosed := false }
  else
    match env.connect with
    | .opError s c =>
      { success := false, message := analyze_sql_error s c (strTake sqlQuery 200) 1 1,
        results := none, attempted := 0, connOpened := false, connClosed := false }
    | .dbError s c =>
      { success := false, message := analyze_sql_error s c (strTake sqlQuery 200) 1 1,
        results := none, attempted := 0, connOpened := false, connClosed := false }
    | .raisesOther m =>
      { success := false, message := env.genericMessage m, results := none,
        attempted := 0, connOpened := false, connClosed := false }
    | .ok =>
      match execLoop env batches 0 none 0 0 0 with
      | .done results lastRc executed attempted =>
        match env.finalCommit with
        | .ok =>
          { success := true, message := execDoneMessage results lastRc executed,
            results := some (match results with
              | some rs => ResVal.rows rs
              | none => ResVal.count lastRc),
            attempted := attempted, connOpened := true, connClosed := true }
        | .opError s c =>
          { success := false, message := analyze_sql_error s c (strTake sqlQuery 200) 1 1,
            results := none, attempted := attempted, connOpened := true, connClosed := false }
        | .dbError s c =>
          { success := false, message := analyze_sql_error s c (strTake sqlQuery 200) 1 1,
            results := none, attempted := attempted, connOpened := true, connClosed := false }
        | .raisesOther m =>
          { success := false, message := env.genericMessage m, results := none,
            attempted := attempted, connOpened := true, connClosed := false }
      | .failedBatch s c b idx attempted =>
        { success := false,
          message := analyze_sql_error s c (String.mk b) idx batches.length,
          results := none, attempted := attempted, connOpened := true, connClosed := true }
      | .raised m attempted =>
        { success := false, message := env.genericMessage m, results := none,
          attempted := attempted, connOpened := true, connClosed := false }

/-!
Orchestrator: `TriggerEndpointService.fetch_and_execute_trigger`
(`app/services/trigger_endpoint_service.py`, lines 64-252).

External collaborators are abstracted: `test_connection` and
`execute_query` always return tuples (both wrap all exceptions
internally, see `database_service.py`), while `requests.get` may raise —
`timeout` and `reqError` model the `requests.exceptions` classes caught
by the inner handlers and by the outer handlers at lines 241-248, and
`raisesOther` models any other exception, which only the generic
`except Exception` at line 249 catches.  The `k`-th HTTP request and the
`k`-th `test_connection` call take their outcome from the environment at
index `k` (phase-1 and phase-2 probes are therefore independent
outcomes, as they are fresh calls in the source).  The decrypt service
call is abstracted as an outcome since the orchestrator catches every
exception from it at line 165.  The source parses the body twice on a
`json.JSONDecodeError` (`response.json()`, then `json.loads` of the
stripped text); both parse the same body, so one `parsed` field models
the combined outcome, with `none` for a body that is not JSON.
-/

/-- Shape of the parsed JSON body: a list of n8n items, or any non-list
value (carrying its Python type name for the error message). -/
inductive JsonShape where
  | jlist (items : List N8nItem)
  | jother (typeName : String)
deriving DecidableEq

/-- Outcome of one `requests.get` call. -/
inductive HttpOutcome where
  | resp (status : Nat) (text : String) (parsed : Option JsonShape)
  | timeout
  | reqError (msg : String)
  | raisesOther (msg : String)
deriving DecidableEq

/-- Outcome of the `decrypt_service.decrypt_from_n8n_format` call as seen
by the orchestrator. -/
inductive DecOutcome where
  | ok (text : String)
  | raises (msg : String)
deriving DecidableEq

/-- Environment of one orchestrator run. -/
structure OrchEnv where
  hasCreds : Bool
  testConn : Nat → Bool × String
  http : Nat → HttpOutcome
  decryptResult : List N8nItem → Option String → DecOutcome
  execQuery : String → Bool × String × Option ResVal

/-- Call counts and the repaired SQL, once produced, of one run. -/
structure OrchTrace where
  testConnCalls : Nat
  httpCalls : Nat
  decryptCalls : Nat
  execCalls : Nat
  repairedSql : Option String
deriving DecidableEq

/-- The returned tuple `(success, message, decrypted_sql)` plus the trace. -/
structure OrchResult where
  success : Bool
  message : String
  sql : Option String
  trace : OrchTrace
deriving DecidableEq

/-- Success message assembly of lines 228-232 (Python truthiness: an
empty result list or a zero row count adds nothing). -/
def successMessage (message : String) (results : Option ResVal) : String :=
  "✅ Trigger erfolgreich aktualisiert!\n\n" ++ message ++
  (match results with
   | some (.rows rs) =>
     if rs.isEmpty then "" else "\n\nGefundene Zeilen: " ++ Nat.repr rs.length
   | some (.count n) => if n = 0 then "" else "\n\nBetroffene Zeilen: " ++ toString n
   | none => "")

/-- Translation of `TriggerEndpointService.fetch_and_execute_trigger`. -/
def fetch_and_execute_trigger (env : OrchEnv) (password : Option String) : OrchResult :=
  if !env.hasCreds then
    { success := false,
      message := "❌ Keine Datenbank-Credentials gefunden.\n\nBitte konfigurieren Sie zuerst die DB-Verbindung über \u0027DB Credentials\u0027.",
      sql := none, trace := ⟨0, 0, 0, 0, none⟩ }
  else if !(env.testConn 0).1 then
    { success := false,
      message := "❌ Datenbankverbindung fehlgeschlagen:\n\n" ++ (env.testConn 0).2 ++
        "\n\nTrigger wird nicht erstellt.",
      sql := none, trace := ⟨1, 0, 0, 0, none⟩ }
  else
    match env.http 0 with
    | .timeout =>
      { success := false,
        message := "❌ Timeout beim Testen des Endpunkts (über 10 Sekunden)\n\nTrigger wird nicht erstellt.",
        sql := none, trace := ⟨1, 1, 0, 0, none⟩ }
    | .reqError m =>
      { success := false,
        message := "❌ Netzwerkfehler beim Testen des Endpunkts: " ++ m ++
          "\n\nTrigger wird nicht erstellt.",
        sql := none, trace := ⟨1, 1, 0, 0, none⟩ }
    | .raisesOther m =>
      { success := false, message := "❌ Unerwarteter Fehler: " ++ m,
        sql := none, trace := ⟨1, 1, 0, 0, none⟩ }
    | .resp st0 text0 _ =>
      if st0 ≠ 200 then
        { success := false,
          message := "❌ Endpoint-Verbindung fehlgeschlagen:\n\nHTTP Fehler " ++
            Nat.repr st0 ++ ": " ++ strTake text0 200 ++ "\n\nTrigger wird nicht erstellt.",
          sql := none, trace := ⟨1, 1, 0, 0, none⟩ }
      else
        match env.http 1 with
        | .timeout =>
          { success := false,
            message := "❌ Timeout beim Abrufen des Endpunkts (über 30 Sekunden)",
            sql := none, trace := ⟨1, 2, 0, 0, none⟩ }
        | .reqError m =>
          { success := false, message := "❌ Netzwerkfehler: " ++ m,
            sql := none, trace := ⟨1, 2, 0, 0, none⟩ }
        | .raisesOther m =>
          { success := false, message := "❌ Unerwarteter Fehler: " ++ m,
            sql := none, trace := ⟨1, 2, 0, 0, none⟩ }
        | .resp st1 text1 parsed =>
          if st1 ≠ 200 then
            { success := false,
              message := "❌ Fehler beim Abrufen des Endpunkts:\n\nHTTP Fehler " ++
                Nat.repr st1 ++ ": " ++ strTake text1 200,
              sql := none, trace := ⟨1, 2, 0, 0, none⟩ }
          else
            match parsed with
            | none =>
              if pyStrip text1.data = [] then
                { success := false, message := "❌ Endpunkt hat keine Daten zurückgegeben",
                  sql := none, trace := ⟨1, 2, 0, 0, none⟩ }
              else
                { success := false,
                  message := "❌ Antwort ist kein gültiges JSON:\n\n" ++
                    strTake (String.mk (pyStrip text1.data)) 200,
                  sql := none, trace := ⟨1, 2, 0, 0, none⟩ }
            | some (.jother typeName) =>
              { success := false,
                message := "❌ Antwort ist keine Liste (n8n-Format erwartet):\n\n" ++ typeName,
                sql := none, trace := ⟨1, 2, 0, 0, none⟩ }
            | some (.jlist items) =>
              if items.isEmpty then
                { success := false, message := "❌ Antwort-Liste ist leer",
                  sql := none, trace := ⟨1, 2, 0, 0, none⟩ }
              else
                match env.decryptResult items password with
                | .raises m =>
                  { success := false, message := "❌ Fehler bei Entschlüsselung: " ++ m,
                    sql := none, trace := ⟨1, 2, 1, 0, none⟩ }
                | .ok decText =>
                  if pyStrip decText.data = [] then
                    { success := false, message := "❌ Entschlüsselte Daten sind leer",
                      sql := none, trace := ⟨1, 2, 1, 0, none⟩ }
                  else if format_sql_for_execution decText.data = [] ||
                      pyStrip (format_sql_for_execution decText.data) = [] then
                    { success := false, message := "❌ Formatierte SQL-Daten sind leer",
                      sql := none, trace := ⟨1, 2, 1, 0, none⟩ }
                  else
                    runPhase2 env
                      (String.mk (fix_trigger_structure (format_sql_for_execution decText.data)))
where
  /-- Phase-2 probes and execution, with the repaired SQL in hand
  (lines 184-239 of the source). -/
  runPhase2 (env : OrchEnv) (corrected : String) : OrchResult :=
    if !(env.testConn 1).1 then
      { success := false,
        message := "❌ Finale Prüfung: Datenbankverbindung fehlgeschlagen:\n\n" ++
          (env.testConn 1).2 ++ "\n\nTrigger wird NICHT erstellt.",
        sql := some corrected, trace := ⟨2, 2, 1, 0, some corrected⟩ }
    else
      match env.http 2 with
      | .timeout =>
        { success := false,
          message := "❌ Finale Prüfung: Endpoint-Verbindung Timeout (über 10 Sekunden)\n\nTrigger wird NICHT erstellt.",
          sql := some corrected, trace := ⟨2, 3, 1, 0, some corrected⟩ }
      | .reqError m =>
        { success := false,
          message := "❌ Finale Prüfung: Endpoint-Verbindung fehlgeschlagen: " ++ m ++
            "\n\nTrigger wird NICHT erstellt.",
          sql := some corrected, trace := ⟨2, 3, 1, 0, some corrected⟩ }
      | .raisesOther m =>
        { success := false, message := "❌ Unerwarteter Fehler: " ++ m,
          sql := none, trace := ⟨2, 3, 1, 0, some corrected⟩ }
      | .resp st2 _ _ =>
        if st2 ≠ 200 then
          { success := false,
            message := "❌ Finale Prüfung: Endpoint-Verbindung fehlgeschlagen (HTTP " ++
              Nat.repr st2 ++ ")\n\nTrigger wird NICHT erstellt.",
            sql := some corrected, trace := ⟨2, 3, 1, 0, some corrected⟩ }
        else
          if (env.execQuery corrected).1 then
            { success := true,
              message := successMessage (env.execQuery corrected).2.1
                (env.execQuery corrected).2.2,
              sql := some corrected, trace := ⟨2, 3, 1, 1, some corrected⟩ }
          else
            { success := false,
              message := "❌ SQL-Ausführung fehlgeschlagen:\n\n" ++
                (env.execQuery corrected).2.1,
              sql := some corrected, trace := ⟨2, 3, 1, 1, some corrected⟩ }

/-- Both phase-2 probes succeed: the second `test_connection` call
returns `True` and the third HTTP request returns status 200. -/
def phase2ok (env : OrchEnv) : Bool :=
  (env.testConn 1).1 &&
  (match env.http 2 with
   | .resp st _ _ => st = 200
   | _ => false)

/-!
Spec-side separator predicates for claim C4.
-/

/-- Separator predicate following the claim's words literally: a line
whose trimmed form is the case-insensitive token `GO` immediately
followed by an optional semicolon and nothing else. -/
def claimSepLine (line : List Char) : Bool :=
  match pyStrip line with
  | [g, o] => charCI g 'g' && charCI o 'o'
  | [g, o, s] => charCI g 'g' && charCI o 'o' && s = ';'
  | _ => false

/-- Separator predicate following the amended words: whitespace, the
case-insensitive token `GO`, whitespace, an optional semicolon,
whitespace, and nothing else. -/
def amendedSepLine (line : List Char) : Prop :=
  ∃ (a b tail : List Char) (g o : Char),
    line = a ++ g :: o :: (b ++ tail) ∧
    (∀ c ∈ a, pyIsSpace c) ∧ charCI g 'g' = true ∧ charCI o 'o' = true ∧
    (∀ c ∈ b, pyIsSpace c) ∧
    (tail = [] ∨ ∃ d, tail = ';' :: d ∧ (∀ c ∈ d, pyIsSpace c))

/-- Trivial instantiation of the cryptographic primitives, used by
concrete witnesses: base64 always yields sixteen zero bytes, AES yields
the single byte `0` (an invalid padding length), UTF-8 decoding yields
the empty string. -/
def trivialPrims : CryptoPrims where
  sha256 := fun _ => List.replicate 32 0
  b64decode := fun _ => .ok (List.replicate 16 0)
  aesDecrypt := fun _ _ _ => .ok [0]
  utf8decode := fun _ => .ok ""

/-- A well-formed bare-format item used by concrete witnesses. -/
def bareItem : N8nItem where
  isDict := true
  pyType := "<class \u0027dict\u0027>"
  hasJsonKey := false
  jsonValIsDict := true
  jsonValType := "<class \u0027dict\u0027>"
  iv := some "aXY="
  encrypted := some "ZW5j"

/-- Environment for the C2 counterexample: everything succeeds up to the
repair, then the phase-2 HTTP probe raises a non-requests exception. -/
def envC2 : OrchEnv where
  hasCreds := true
  testConn := fun _ => (true, "Verbindung erfolgreich")
  http := fun k =>
    if k = 2 then .raisesOther "KeyError"
    else if k = 1 then .resp 200 "[]" (some (.jlist [bareItem]))
    else .resp 200 "" none
  decryptResult := fun _ _ => .ok "SELECT 1"
  execQuery := fun _ => (true, "ok", none)

/-- Environment for the C1 counterexample: the fetch returns a single
JSON object (a dict). -/
def envC1 : OrchEnv where
  hasCreds := true
  testConn := fun _ => (true, "Verbindung erfolgreich")
  http := fun k =>
    if k = 1 then .resp 200 "\x7b\x7d" (some (.jother "<class \u0027dict\u0027>"))
    else .resp 200 "" none
  decryptResult := fun _ _ => .ok "SELECT 1"
  execQuery := fun _ => (true, "ok", none)

/-- A batch outcome that lets the loop continue. -/
def batchOk (o : BatchOutcome) : Prop :=
  (∃ rs, o = BatchOutcome.rows rs) ∨ (∃ rc, o = BatchOutcome.ddl rc)

/-- Environment for the C7 counterexample: batch 1 succeeds as DDL, batch
2 fails with an authentication-classified pyodbc error. -/
def envC7 : DbEnv where
  connect := .ok
  batch := fun k => if k = 1 then .dbError "Login failed" none else .ddl 1
  finalCommit := .ok
  genericMessage := fun m => m

/-- Environment for the C7 witness: the first batch fails with a
syntax-classified error. -/
def envC7w : DbEnv where
  connect := .ok
  batch := fun _ => .progError "42000 syntax error" none
  finalCommit := .ok
  genericMessage := fun m => m

/-- Environment for the C9 evaluation: a batch raises a non-pyodbc
exception. -/
def envC9 : DbEnv where
  connect := .ok
  batch := fun _ => .raisesOther "RuntimeError: boom"
  finalCommit := .ok
  genericMessage := fun m => m

/-!
Theorems.
-/

/-- The function `splitLines` never returns the empty list of lines. -/
theorem splitLines_ne_nil (l : List Char) : splitLines l ≠ [] := by
  cases l with
  | nil => simp [splitLines]
  | cons c rest =>
    simp only [splitLines]
    split
    · simp
    · cases splitLines rest <;> simp

/-- Joining the split lines reconstructs the original text. -/
theorem joinLines_splitLines (l : List Char) : joinLines (splitLines l) = l := by
  induction l with
  | nil => rfl
  | cons c rest ih =>
    by_cases hc : c = '\n'
    · subst hc
      simp only [splitLines, if_pos rfl]
      cases h : splitLines rest with
      | nil => exact absurd h (splitLines_ne_nil rest)
      | cons x xs => rw [h] at ih; simpa [joinLines] using ih
    · simp only [splitLines, if_neg hc]
      cases h : splitLines rest with
      | nil => exact absurd h (splitLines_ne_nil rest)
      | cons x xs =>
        rw [h] at ih
        cases xs with
        | nil => simpa [joinLines] using ih
        | cons y ys => simpa [joinLines] using ih

/-- Dropping while `p` ignores a fully-`p` prefix. -/
theorem dropWhile_append_all {p : Char → Bool} {a l : List Char}
    (ha : ∀ c ∈ a, p c) : List.dropWhile p (a ++ l) = List.dropWhile p l := by
  induction a with
  | nil => rfl
  | cons x xs ih =>
    have hx : p x := ha x (by simp)
    simp only [List.cons_append, List.dropWhile_cons, hx]
    exact ih fun c hc => ha c (by simp [hc])

/-- Right-dropping while `p` ignores a fully-`p` suffix. -/
theorem rdropWhile_append_all {p : Char → Bool} {b l : List Char}
    (hb : ∀ c ∈ b, p c) : List.rdropWhile p (l ++ b) = List.rdropWhile p l := by
  unfold List.rdropWhile
  rw [List.reverse_append, dropWhile_append_all (by simpa using hb)]

/-- Stripping ignores whitespace-only padding on the left. -/
theorem pyStrip_ws_left {a l : List Char} (ha : ∀ c ∈ a, pyIsSpace c) :
    pyStrip (a ++ l) = pyStrip l := by
  unfold pyStrip
  rw [dropWhile_append_all ha]

/-- The operation `dropWhile` distributes over an append whose left part does not vanish. -/
theorem dropWhile_append_eq {p : Char → Bool} (a b : List Char) :
    List.dropWhile p (a ++ b) =
      if List.dropWhile p a = [] then List.dropWhile p b
      else List.dropWhile p a ++ b := by
  induction a with
  | nil => simp
  | cons x xs ih =>
    by_cases hx : p x
    · simpa [List.dropWhile_cons, hx] using ih
    · simp [List.dropWhile_cons, hx]

/-- Stripping ignores whitespace-only padding on the right. -/
theorem pyStrip_ws_right {b l : List Char} (hb : ∀ c ∈ b, pyIsSpace c) :
    pyStrip (l ++ b) = pyStrip l := by
  unfold pyStrip
  rw [dropWhile_append_eq]
  by_cases h : List.dropWhile pyIsSpace l = []
  · rw [if_pos h, h, List.dropWhile_eq_nil_iff.mpr (fun x hx => hb x hx)]
  · rw [if_neg h, rdropWhile_append_all hb]

/-- Stripping is idempotent. -/
theorem pyStrip_idem (l : List Char) : pyStrip (pyStrip l) = pyStrip l := by
  conv_lhs => rw [pyStrip]
  cases hr : pyStrip l with
  | nil => simp
  | cons a as =>
    have hpre := List.rdropWhile_prefix pyIsSpace (List.dropWhile pyIsSpace l)
    rw [show List.rdropWhile pyIsSpace (List.dropWhile pyIsSpace l) = pyStrip l from rfl, hr] at hpre
    obtain ⟨t, ht⟩ := hpre
    have hm : List.dropWhile pyIsSpace l ≠ [] := by
      intro h0
      rw [h0] at ht
      simp at ht
    have hhead : (List.dropWhile pyIsSpace l).head hm = a := by
      simp only [← ht, List.cons_append, List.head_cons]
    have hna : pyIsSpace a = false := by
      have hnot := List.head_dropWhile_not pyIsSpace l hm
      rwa [hhead] at hnot
    have hdrop : List.dropWhile pyIsSpace (a :: as) = a :: as := by
      simp [List.dropWhile_cons, hna]
    rw [hdrop, ← hr]
    exact List.rdropWhile_idempotent ..

/-- Every batch flushed by the loop is already stripped and non-empty. -/
theorem mem_batchesGo_stripped {lines cur acc : List (List Char)} {b : List Char}
    (hacc : ∀ x ∈ acc, pyStrip x = x ∧ x ≠ []) (hb : b ∈ batchesGo lines cur acc) :
    pyStrip b = b ∧ b ≠ [] := by
  induction lines generalizing cur acc with
  | nil =>
    simp only [batchesGo, List.mem_append] at hb
    rcases hb with h | h
    · exact hacc b h
    · unfold flushBatch at h
      split at h
      · simp at h
      · split at h
        · simp at h
        · next hne =>
          simp only [List.mem_singleton] at h
          subst h
          exact ⟨pyStrip_idem _, hne⟩
  | cons line rest ih =>
    simp only [batchesGo] at hb
    split at hb
    · refine ih ?_ hb
      intro x hx
      simp only [List.mem_append] at hx
      rcases hx with h | h
      · exact hacc x h
      · unfold flushBatch at h
        split at h
        · simp at h
        · split at h
          · simp at h
          · next hne =>
            simp only [List.mem_singleton] at h
            subst h
            exact ⟨pyStrip_idem _, hne⟩
    · exact ih hacc hb

/-- Every batch returned by `split_sql_batches` is stripped and non-empty. -/
theorem mem_split_sql_batches_stripped {q : List Char} {b : List Char}
    (hb : b ∈ split_sql_batches q) : pyStrip b = b ∧ b ≠ [] := by
  unfold split_sql_batches at hb
  split at hb
  · split at hb
    · simp at hb
    · next hq =>
      simp only [List.mem_singleton] at hb
      subst hb
      exact ⟨pyStrip_idem _, hq⟩
  · exact mem_batchesGo_stripped (by simp) hb

/-- When no line is a separator, the loop flushes everything as one batch. -/
theorem batchesGo_no_sep {lines cur acc : List (List Char)}
    (h : ∀ l ∈ lines, ¬ isGoSepLine l) :
    batchesGo lines cur acc = acc ++ flushBatch (cur ++ lines) := by
  induction lines generalizing cur with
  | nil => simp [batchesGo]
  | cons line rest ih =>
    have hline : ¬ isGoSepLine line = true := h line (by simp)
    simp only [batchesGo, if_neg hline]
    rw [ih (fun l hl => h l (by simp [hl]))]
    simp

/-- Splitting off the whitespace ends of a list: the list is its stripped
core surrounded by whitespace. -/
theorem pyStrip_decomposition (l : List Char) :
    l = l.takeWhile pyIsSpace ++ pyStrip l ++
        List.rtakeWhile pyIsSpace (l.dropWhile pyIsSpace) := by
  conv_lhs => rw [← List.takeWhile_append_dropWhile (p := pyIsSpace) (l := l)]
  rw [List.append_assoc]
  congr 1
  unfold pyStrip List.rdropWhile List.rtakeWhile
  conv_lhs => rw [← List.reverse_reverse (List.dropWhile pyIsSpace l)]
  rw [← List.reverse_append, ← List.takeWhile_append_dropWhile
    (p := pyIsSpace) (l := (List.dropWhile pyIsSpace l).reverse)]
  simp

/-- Stripping after filtering ignores whether the input was stripped first. -/
theorem pyStrip_filter_pyStrip (p : Char → Bool) (l : List Char) :
    pyStrip (List.filter p (pyStrip l)) = pyStrip (List.filter p l) := by
  conv_rhs => rw [pyStrip_decomposition l]
  rw [List.filter_append, List.filter_append]
  rw [pyStrip_ws_right (fun c hc => List.mem_rtakeWhile_imp (List.mem_of_mem_filter hc)),
    pyStrip_ws_left (fun c hc => List.mem_takeWhile_imp (List.mem_of_mem_filter hc))]

/-- Single-pass characterization of `format_sql_for_execution`: the result
is exactly the input with every character matched by the two removal
regexes deleted and the ends stripped of Python whitespace.  In particular
C1 control characters (`U+0080`–`U+009F`) and format characters other than
`U+200B`–`U+200D`/`U+FEFF` are preserved, as is all interior whitespace. -/
theorem format_sql_single_pass (s : List Char) :
    format_sql_for_execution s = pyStrip (s.filter keepChar) := by
  have hff : ∀ l : List Char, List.filter (fun c => !zwRemoved c)
      (List.filter (fun c => !ctrlRemoved c) l) = List.filter keepChar l := by
    intro l
    rw [List.filter_filter]
    exact List.filter_congr fun a _ => by unfold keepChar; rw [Bool.and_comm]
  unfold format_sql_for_execution
  split
  · next hcond =>
    rcases Bool.or_eq_true_iff.mp hcond with h | h
    · have : s = [] := by simpa using h
      subst this
      rfl
    · have hs : pyStrip s = [] := by simpa using h
      rw [← pyStrip_filter_pyStrip, hs]
      rfl
  · next hcond =>
    rw [hff]
    cases ht : pyStrip s with
    | nil => simp [ht] at hcond
    | cons c rest =>
      by_cases hbom : c = '\uFEFF'
      · subst hbom
        rw [show bomDrop ('\uFEFF' :: rest) = pyStrip rest from by simp [bomDrop]]
        rw [pyStrip_filter_pyStrip]
        have hdropbom : List.filter keepChar ('\uFEFF' :: rest) = List.filter keepChar rest := by
          simp [List.filter_cons, keepChar, zwRemoved]
        calc pyStrip (List.filter keepChar rest)
            = pyStrip (List.filter keepChar ('\uFEFF' :: rest)) := by rw [hdropbom]
          _ = pyStrip (List.filter keepChar (pyStrip s)) := by rw [ht]
          _ = pyStrip (List.filter keepChar s) := pyStrip_filter_pyStrip ..
      · rw [show bomDrop (c :: rest) = c :: rest from by simp [bomDrop, hbom]]
        rw [← ht, pyStrip_filter_pyStrip]

/-- When the text contains no `CREATE TRIGGER`, the repair is the
identity. -/
theorem fix_trigger_no_create (s : List Char)
    (h : containsCreateTrigger s = false) : fix_trigger_structure s = s := by
  unfold fix_trigger_structure
  rw [h]
  split
  · rfl
  · rfl

/-- An ASCII code point between 65 and 122 is never Python whitespace. -/
theorem pyIsSpace_eq_false_of_alpha {c : Char} (h1 : 65 ≤ c.toNat)
    (h2 : c.toNat ≤ 122) : pyIsSpace c = false := by
  unfold pyIsSpace
  simp only [Bool.or_eq_false_iff, Bool.and_eq_false_iff, decide_eq_false_iff_not]
  omega

/-- A character case-insensitively equal to a lower-case ASCII letter is
never Python whitespace. -/
theorem charCI_letter_not_space {c k : Char} (hk1 : 97 ≤ k.toNat)
    (hk2 : k.toNat ≤ 122) (h : charCI c k = true) : pyIsSpace c = false := by
  unfold charCI at h
  simp only [Bool.or_eq_true, Bool.and_eq_true, decide_eq_true_eq] at h
  apply pyIsSpace_eq_false_of_alpha <;> omega

/-- The separator scanner of `_split_sql_batches` accepts exactly the
lines of the amended description. -/
theorem isGoSepLine_iff_amended (line : List Char) :
    isGoSepLine line = true ↔ amendedSepLine line := by
  constructor
  · intro h
    unfold isGoSepLine at h
    cases hm : line.dropWhile pyIsSpace with
    | nil => rw [hm] at h; simp at h
    | cons g rest0 =>
      cases rest0 with
      | nil => rw [hm] at h; simp at h
      | cons o rest =>
        rw [hm] at h
        simp only [Bool.and_eq_true] at h
        obtain ⟨⟨hg, ho⟩, harm⟩ := h
        have hline : line = line.takeWhile pyIsSpace ++ (g :: o :: rest) := by
          rw [← hm, List.takeWhile_append_dropWhile]
        cases hr : rest.dropWhile pyIsSpace with
        | nil =>
          refine ⟨line.takeWhile pyIsSpace, rest, [], g, o, ?_,
            fun c hc => List.mem_takeWhile_imp hc, hg, ho,
            fun c hc => List.dropWhile_eq_nil_iff.mp hr c hc, Or.inl rfl⟩
          simpa using hline
        | cons s rest2 =>
          rw [hr] at harm
          split at harm
          · next heq => exact absurd heq (by simp)
          · next rest3 heq =>
            injection heq with hs1 hs2
            subst hs1
            subst hs2
            refine ⟨line.takeWhile pyIsSpace, rest.takeWhile pyIsSpace, ';' :: rest2, g, o, ?_,
              fun c hc => List.mem_takeWhile_imp hc, hg, ho,
              fun c hc => List.mem_takeWhile_imp hc,
              Or.inr ⟨rest2, rfl, fun c hc =>
                List.dropWhile_eq_nil_iff.mp (by simpa using harm) c hc⟩⟩
            rw [hline]
            congr 2
            rw [← hr, List.takeWhile_append_dropWhile]
          · exact absurd harm (by simp)
  · rintro ⟨a, b, tail, g, o, hline, ha, hg, ho, hb, htail⟩
    have hgns : pyIsSpace g = false := charCI_letter_not_space (by decide) (by decide) hg
    have hm : line.dropWhile pyIsSpace = g :: o :: (b ++ tail) := by
      rw [hline, dropWhile_append_all ha, List.dropWhile_cons, hgns]
      simp
    unfold isGoSepLine
    rw [hm]
    simp only [hg, ho, Bool.true_and]
    have hrest : (b ++ tail).dropWhile pyIsSpace = tail.dropWhile pyIsSpace :=
      dropWhile_append_all hb
    rcases htail with rfl | ⟨d, rfl, hd⟩
    · rw [hrest]
      simp [List.dropWhile_nil]
    · rw [hrest, List.dropWhile_cons]
      simp only [show pyIsSpace ';' = false from rfl]
      simp [List.dropWhile_eq_nil_iff.mpr hd]

/-- Claim C4, counterexample: the line `GO ;` is not, after trimming, the
token `GO` immediately followed by an optional semicolon and nothing else
— no line of `A\nGO ;\nB` is — yet `_split_sql_batches` treats it as a
separator and returns two batches instead of the single batch the claim
then requires. -/
theorem claim_C4_counterexample :
    (∀ l ∈ splitLines "A\nGO ;\nB".data, claimSepLine l = false) ∧
    split_sql_batches "A\nGO ;\nB".data = ["A".data, "B".data] := by decide

/-- Claim C4 as amended: `_split_sql_batches` treats as separators exactly
the lines consisting of whitespace, the case-insensitive token `GO`,
whitespace, an optional semicolon and whitespace (nothing else); text
containing no such line yields exactly one batch — the trimmed input —
when that is non-blank; `A\nGO\nB\nGO\n` yields exactly `[A, B]`;
trailing content after the last separator yields a final batch; and all
returned batches are trimmed and non-empty. -/
theorem claim_C4_amended :
    (∀ line, isGoSepLine line = true ↔ amendedSepLine line) ∧
    (∀ q, (∀ l ∈ splitLines q, isGoSepLine l = false) →
      split_sql_batches q = if pyStrip q = [] then [] else [pyStrip q]) ∧
    split_sql_batches "A\nGO\nB\nGO\n".data = ["A".data, "B".data] ∧
    split_sql_batches "A\nGO\nB".data = ["A".data, "B".data] ∧
    (∀ q b, b ∈ split_sql_batches q → pyStrip b = b ∧ b ≠ []) := by
  refine ⟨isGoSepLine_iff_amended, ?_, by decide, by decide,
    fun q b hb => mem_split_sql_batches_stripped hb⟩
  intro q hq
  have hns : ∀ l ∈ splitLines q, ¬ isGoSepLine l = true := by
    intro l hl
    rw [hq l hl]
    simp
  unfold split_sql_batches
  rw [batchesGo_no_sep hns]
  simp only [List.nil_append]
  unfold flushBatch
  rw [if_neg (splitLines_ne_nil q), joinLines_splitLines]
  by_cases hq0 : pyStrip q = []
  · rw [if_pos hq0]
    simp [hq0]
  · rw [if_neg hq0]
    simp [hq0]

/-- Witness for claim C4: a two-line query without separator lines is one
batch. -/
theorem claim_C4_witness :
    (∀ l ∈ splitLines "SELECT 1\nUPDATE t".data, isGoSepLine l = false) ∧
    split_sql_batches "SELECT 1\nUPDATE t".data = ["SELECT 1\nUPDATE t".data] := by
  refine ⟨by decide, ?_⟩
  have h := claim_C4_amended.2.1 "SELECT 1\nUPDATE t".data (by decide)
  rw [h, if_neg (by decide)]
  decide

/-- Claim C5, counterexample: `fix_trigger_structure` is not idempotent.
On a trigger with two unmatched `BEGIN`s before `GO`, each application
inserts one `END`, so the second application changes the text again. -/
theorem claim_C5_counterexample :
    fix_trigger_structure (fix_trigger_structure
      "CREATE TRIGGER t ON x AS\nBEGIN\nBEGIN\nPRINT 1\nGO".data) ≠
    fix_trigger_structure "CREATE TRIGGER t ON x AS\nBEGIN\nBEGIN\nPRINT 1\nGO".data := by
  decide

/-- Claim C5 as amended: on every input without a `CREATE TRIGGER` token
the repair is the identity — hence idempotent there; idempotence fails in
general (see the counterexample). -/
theorem claim_C5_amended (s : List Char) (h : containsCreateTrigger s = false) :
    fix_trigger_structure s = s ∧
    fix_trigger_structure (fix_trigger_structure s) = fix_trigger_structure s := by
  have h1 := fix_trigger_no_create s h
  exact ⟨h1, by rw [h1, h1]⟩

/-- Witness for claim C5: plain SQL without a trigger is returned
unchanged, twice. -/
theorem claim_C5_witness :
    containsCreateTrigger "SELECT 1".data = false ∧
    fix_trigger_structure "SELECT 1".data = "SELECT 1".data ∧
    fix_trigger_structure (fix_trigger_structure "SELECT 1".data) =
      fix_trigger_structure "SELECT 1".data :=
  ⟨by decide, claim_C5_amended "SELECT 1".data (by decide)⟩

/-- Claim C8, counterexample: the C1 control character `U+0085` survives
`format_sql_for_execution` unchanged, although the claim says all C0 and
C1 control characters are removed. -/
theorem claim_C8_counterexample :
    '\u0085' ∈ format_sql_for_execution "SELECT\u0085 1".data ∧
    0x80 ≤ '\u0085'.toNat ∧ '\u0085'.toNat ≤ 0x9F := by decide

/-- Claim C8 as amended: `format_sql_for_execution` equals the single
pass that deletes exactly the C0 controls other than tab/newline/carriage
return, `DEL`, and `U+200B`-`U+200D`/`U+FEFF`, then trims Python
whitespace from both ends — so a leading BOM is dropped, C1 controls and
other format characters are preserved, and interior whitespace is kept
verbatim. -/
theorem claim_C8_amended (s : List Char) :
    format_sql_for_execution s = pyStrip (s.filter keepChar) :=
  format_sql_single_pass s

/-- Claim C6: when the AES-CBC decryption of an item yields a byte string
whose last byte `p` is `0` or greater than `16`, or whose last `p` bytes
are not all `p`, `decrypt_from_n8n_format` fails with a `ValueError`; and
whenever it returns a plaintext, the padding was well-formed
(`1 ≤ p ≤ 16` and the last `p` bytes all equal `p`), so no silent
truncation occurs. -/
theorem claim_C6_padding (prims : CryptoPrims) (item : N8nItem) (password : String)
    (padded : List Nat)
    (hpw : password ≠ "")
    (hdict : item.isDict = true)
    (hjson : item.hasJsonKey = true → item.jsonValIsDict = true)
    (hiv : strOptFalsy item.iv = false)
    (henc : strOptFalsy item.encrypted = false)
    (divl dencl : List Nat)
    (hivdec : prims.b64decode (item.iv.getD "") = .ok divl)
    (hencdec : prims.b64decode (item.encrypted.getD "") = .ok dencl)
    (hivlen : divl.length = 16)
    (haes : prims.aesDecrypt (prims.sha256 password) divl dencl = .ok padded) :
    (∀ p, padded.getLast? = some p →
      (p = 0 ∨ 16 < p ∨
        ((padded.drop (padded.length - p)).all (fun b => b = p)) = false) →
      ∃ m, decrypt_from_n8n_format prims [item] password = .error (.valueError m)) ∧
    (∀ s, decrypt_from_n8n_format prims [item] password = .ok s →
      ∃ p, padded.getLast? = some p ∧ 1 ≤ p ∧ p ≤ 16 ∧
        ((padded.drop (padded.length - p)).all (fun b => b = p)) = true) := by
  have hj : (item.hasJsonKey && !item.jsonValIsDict) = false := by
    cases h : item.hasJsonKey with
    | false => simp
    | true => simp [hjson h]
  have hitem : decryptItem prims (prims.sha256 password) item =
      (match unpadPkcs7 padded with
       | .error e => .error e
       | .ok bytes => prims.utf8decode bytes) := by
    unfold decryptItem
    rw [hdict, hiv, henc, hivdec, hencdec]
    simp only [hj, Bool.not_true, Bool.false_eq_true, if_false]
    simp [hivlen, haes]
  have hrun : decrypt_from_n8n_format prims [item] password =
      (match unpadPkcs7 padded with
       | .error e => .error (pyExcToValueError e)
       | .ok bytes =>
         match prims.utf8decode bytes with
         | .error e => .error (pyExcToValueError e)
         | .ok s => .ok (String.join [s])) := by
    unfold decrypt_from_n8n_format
    rw [if_neg (by simp), if_neg hpw]
    simp only [decryptItems, hitem]
    cases hu : unpadPkcs7 padded with
    | error e => simp
    | ok bytes =>
      cases hd : prims.utf8decode bytes with
      | error e => simp [hd]
      | ok s => simp [hd]
  have hup : ∀ p, padded.getLast? = some p → unpadPkcs7 padded =
      (if (p < 1 || p > 16) then
        Except.error (PyExc.valueError ("Ungültige Padding-Länge: " ++ Nat.repr p))
       else if (!((padded.drop (padded.length - p)).all (fun b => b = p))) then
        Except.error (PyExc.valueError "Ungültiges Padding-Format")
       else Except.ok (padded.take (padded.length - p))) := by
    intro p hlast
    unfold unpadPkcs7
    rw [hlast]
  constructor
  · intro p hlast hbad
    rw [hrun, hup p hlast]
    by_cases hrange : (p < 1 || p > 16) = true
    · rw [if_pos hrange]
      exact ⟨_, rfl⟩
    · rw [if_neg hrange]
      simp only [Bool.or_eq_true, decide_eq_true_eq, not_or] at hrange
      have hall : ((padded.drop (padded.length - p)).all (fun b => b = p)) = false := by
        rcases hbad with h0 | h16 | hb
        · omega
        · omega
        · exact hb
      rw [hall]
      exact ⟨_, rfl⟩
  · intro s hs
    rw [hrun] at hs
    cases hu : unpadPkcs7 padded with
    | error e => rw [hu] at hs; cases hs
    | ok bytes =>
      cases hlast : padded.getLast? with
      | none =>
        rw [show unpadPkcs7 padded = Except.error (PyExc.otherError "index out of range") from
          by unfold unpadPkcs7; rw [hlast]] at hu
        cases hu
      | some p =>
        rw [hup p hlast] at hu
        by_cases hrange : (p < 1 || p > 16) = true
        · rw [if_pos hrange] at hu; cases hu
        · rw [if_neg hrange] at hu
          simp only [Bool.or_eq_true, decide_eq_true_eq, not_or] at hrange
          by_cases hall : ((padded.drop (padded.length - p)).all (fun b => b = p)) = true
          · exact ⟨p, rfl, by omega, by omega, hall⟩
          · rw [Bool.not_eq_true] at hall
            rw [hall] at hu
            simp at hu

/-- Witness for claim C6: with the trivial primitives the decrypted byte
string is `[0]`, whose padding byte `0` is rejected with a `ValueError`. -/
theorem claim_C6_witness :
    ∃ m, decrypt_from_n8n_format trivialPrims [bareItem] "geh31m" =
      .error (.valueError m) :=
  (claim_C6_padding trivialPrims bareItem "geh31m" [0] (by decide) rfl
    (by intro h; cases h) rfl rfl (List.replicate 16 0) (List.replicate 16 0)
    rfl rfl (by decide) rfl).1 0 rfl (Or.inl rfl)

/-- Claim C10: every failure of `decrypt_from_n8n_format` leaves the
function as a `ValueError`: the two early validations raise `ValueError`
directly and the closing `except` chain converts `UnicodeDecodeError`
and every other exception class to `ValueError`. -/
theorem claim_C10_valueError (prims : CryptoPrims) (items : List N8nItem)
    (password : String) :
    ∀ e, decrypt_from_n8n_format prims items password = .error e →
      ∃ m, e = PyExc.valueError m := by
  intro e he
  unfold decrypt_from_n8n_format at he
  split at he
  · cases he
    exact ⟨_, rfl⟩
  · split at he
    · cases he
      exact ⟨_, rfl⟩
    · split at he
      · cases he
      · next e' _ =>
        cases he
        cases e' with
        | valueError m => exact ⟨m, rfl⟩
        | unicodeError m => exact ⟨_, rfl⟩
        | otherError m => exact ⟨_, rfl⟩

/-- Witness for claim C10: the empty items list fails with the dedicated
`ValueError`. -/
theorem claim_C10_witness :
    decrypt_from_n8n_format trivialPrims [] "x" =
      .error (.valueError "Items-Liste ist leer") ∧
    ∃ m, PyExc.valueError "Items-Liste ist leer" = PyExc.valueError m :=
  ⟨rfl, claim_C10_valueError trivialPrims [] "x"
    (.valueError "Items-Liste ist leer") rfl⟩

/-- Phase 2 always records the repaired SQL in the trace, whatever its
outcome. -/
theorem runPhase2_trace (env : OrchEnv) (c : String) :
    (fetch_and_execute_trigger.runPhase2 env c).trace.repairedSql = some c := by
  unfold fetch_and_execute_trigger.runPhase2
  repeat' split
  all_goals rfl

/-- Phase 2 never reaches `execute_query` unless the phase-2 probes both
succeed. -/
theorem runPhase2_gates_exec (env : OrchEnv) (c : String)
    (h : phase2ok env = false) :
    (fetch_and_execute_trigger.runPhase2 env c).trace.execCalls = 0 := by
  unfold phase2ok at h
  unfold fetch_and_execute_trigger.runPhase2
  cases h1 : (env.testConn 1).1 with
  | false => simp [h1]
  | true =>
    rw [h1] at h
    simp only [Bool.true_and] at h
    cases h2 : env.http 2 with
    | timeout => simp [h1, h2]
    | reqError m => simp [h1, h2]
    | raisesOther m => simp [h1, h2]
    | resp st t p =>
      rw [h2] at h
      have hst : st ≠ 200 := by simpa using h
      simp [h1, h2, hst]

/-- In a failing phase 2 whose HTTP probe does not raise a non-requests
exception, the repaired SQL is attached to the result. -/
theorem runPhase2_fail_sql (env : OrchEnv) (c : String)
    (hraise : ∀ m, env.http 2 ≠ .raisesOther m)
    (hfail : (fetch_and_execute_trigger.runPhase2 env c).success = false) :
    (fetch_and_execute_trigger.runPhase2 env c).sql = some c := by
  unfold fetch_and_execute_trigger.runPhase2 at hfail ⊢
  cases h1 : (env.testConn 1).1 with
  | false => simp [h1]
  | true =>
    cases h2 : env.http 2 with
    | timeout => simp [h1, h2]
    | reqError m => simp [h1, h2]
    | raisesOther m => exact absurd h2 (hraise m)
    | resp st t p =>
      by_cases hst : st = 200
      · cases h3 : (env.execQuery c).1 with
        | true => simp [h1, h2, hst, h3] at hfail
        | false => simp [h1, h2, hst, h3]
      · simp [h1, h2, hst]

/-- Every orchestrator run either fails before the repair step — with no
repaired SQL recorded and `execute_query` never called — or is a phase-2
run on some repaired SQL. -/
theorem orch_struct (env : OrchEnv) (pw : Option String) :
    ((fetch_and_execute_trigger env pw).trace.repairedSql = none ∧
     (fetch_and_execute_trigger env pw).trace.execCalls = 0) ∨
    ∃ c, fetch_and_execute_trigger env pw = fetch_and_execute_trigger.runPhase2 env c := by
  unfold fetch_and_execute_trigger
  repeat' split
  all_goals first
    | exact Or.inl ⟨rfl, rfl⟩
    | exact Or.inr ⟨_, rfl⟩

/-- Claim C3: `execute_query` is invoked only when both phase-2 probes —
the second `test_connection` call and the third HTTP request, both fresh
calls performed after decryption and repair — succeed; when either fails
the execution engine is called zero times. -/
theorem claim_C3_gating (env : OrchEnv) (pw : Option String)
    (h : phase2ok env = false) :
    (fetch_and_execute_trigger env pw).trace.execCalls = 0 := by
  rcases orch_struct env pw with ⟨_, hzero⟩ | ⟨c, hc⟩
  · exact hzero
  · rw [hc]
    exact runPhase2_gates_exec env c h

/-- Witness for claim C3: with a failing phase-2 database probe after a
successful phase 1, the execution engine is called zero times. -/
theorem claim_C3_witness :
    phase2ok
      { hasCreds := true
        testConn := fun k => (k == 0, "x")
        http := fun _ => HttpOutcome.resp 200 "" (some (.jlist [bareItem]))
        decryptResult := fun _ _ => .ok "SELECT 1"
        execQuery := fun _ => (true, "ok", none) } = false ∧
    (fetch_and_execute_trigger
      { hasCreds := true
        testConn := fun k => (k == 0, "x")
        http := fun _ => HttpOutcome.resp 200 "" (some (.jlist [bareItem]))
        decryptResult := fun _ _ => .ok "SELECT 1"
        execQuery := fun _ => (true, "ok", none) } none).trace.execCalls = 0 :=
  ⟨by decide, claim_C3_gating _ none (by decide)⟩

/-- Claim C2 as amended: once the repaired SQL exists, every failing
return taken through the explicit failure paths — failed phase-2 database
probe, failed phase-2 endpoint probe (non-200, timeout or request error)
or failed SQL execution — carries that SQL as the third tuple component;
only a non-requests exception escaping to the generic handler loses it
(see the counterexample). -/
theorem claim_C2_amended (env : OrchEnv) (pw : Option String) (r : String)
    (hrep : (fetch_and_execute_trigger env pw).trace.repairedSql = some r)
    (hraise : ∀ m, env.http 2 ≠ .raisesOther m)
    (hfail : (fetch_and_execute_trigger env pw).success = false) :
    (fetch_and_execute_trigger env pw).sql = some r := by
  rcases orch_struct env pw with ⟨hnone, _⟩ | ⟨c, hc⟩
  · rw [hnone] at hrep
    cases hrep
  · rw [hc] at hrep hfail ⊢
    have hcr : c = r := by
      have ht := runPhase2_trace env c
      rw [ht] at hrep
      exact Option.some.inj hrep
    subst hcr
    exact runPhase2_fail_sql env c hraise hfail

/-- Claim C2, counterexample: the repaired SQL has been produced, the run
fails — through the generic exception handler — and the returned third
component is `None`, not the repaired SQL. -/
theorem claim_C2_counterexample :
    (fetch_and_execute_trigger envC2 none).trace.repairedSql = some "SELECT 1" ∧
    (fetch_and_execute_trigger envC2 none).success = false ∧
    (fetch_and_execute_trigger envC2 none).sql = none := by decide

/-- Witness for claim C2: with a failing SQL execution the repaired SQL
is returned. -/
theorem claim_C2_witness :
    (fetch_and_execute_trigger
      { envC2 with
          http := fun k =>
            if k = 1 then .resp 200 "[]" (some (.jlist [bareItem]))
            else .resp 200 "" none
          execQuery := fun _ => (false, "boom", none) } none).sql = some "SELECT 1" :=
  claim_C2_amended _ none "SELECT 1" (by decide)
    (fun m h => by simp at h) (by decide)

/-- Claim C1 as amended: a fetch whose HTTP body parses as any non-list
JSON value — a single object included — is a hard failure: the run stops
with the shape error message, `decrypt` is never called and no SQL is
returned.  Only JSON arrays are accepted. -/
theorem claim_C1_amended (env : OrchEnv) (pw : Option String) (t0 text1 : String)
    (p0 : Option JsonShape) (typeName : String)
    (hcreds : env.hasCreds = true)
    (hdb : (env.testConn 0).1 = true)
    (hp1 : env.http 0 = .resp 200 t0 p0)
    (hfetch : env.http 1 = .resp 200 text1 (some (.jother typeName))) :
    (fetch_and_execute_trigger env pw).success = false ∧
    (fetch_and_execute_trigger env pw).trace.decryptCalls = 0 ∧
    (fetch_and_execute_trigger env pw).sql = none ∧
    (fetch_and_execute_trigger env pw).message =
      "❌ Antwort ist keine Liste (n8n-Format erwartet):\n\n" ++ typeName := by
  unfold fetch_and_execute_trigger
  rw [hcreds, hdb, hp1, hfetch]
  simp

/-- Claim C1, counterexample: a 200 response whose body is a single JSON
object is rejected as a hard failure; the decrypt step is never reached,
contrary to the claimed normalization to a one-element array. -/
theorem claim_C1_counterexample :
    (fetch_and_execute_trigger envC1 none).success = false ∧
    (fetch_and_execute_trigger envC1 none).trace.decryptCalls = 0 ∧
    (fetch_and_execute_trigger envC1 none).sql = none := by decide

/-- Witness for claim C1: the amended claim at the counterexample
environment. -/
theorem claim_C1_witness :
    (fetch_and_execute_trigger envC1 none).message =
      "❌ Antwort ist keine Liste (n8n-Format erwartet):\n\n" ++ "<class \u0027dict\u0027>" :=
  (claim_C1_amended envC1 none "" "\x7b\x7d" none "<class \u0027dict\u0027>"
    rfl rfl rfl rfl).2.2.2

/-- If the batches before position `i` succeed and batch `i` raises a
pyodbc error, the loop stops at `i` with `i + 1` attempts (counted from
the starting offsets). -/
theorem execLoop_first_error (env : DbEnv) (errStr : String) (code : Option String) :
    ∀ (bs : List (List Char)) (k : Nat) (res : Option (List Nat)) (rc : Int)
      (ex att : Nat) (i : Nat) (hi : i < bs.length),
      (∀ b ∈ bs, pyStrip b = b ∧ b ≠ []) →
      (∀ j, j < i → batchOk (env.batch (k + j))) →
      (env.batch (k + i) = .progError errStr code ∨
       env.batch (k + i) = .dbError errStr code) →
      execLoop env bs k res rc ex att =
        .failedBatch errStr code (bs.get ⟨i, hi⟩) (k + i + 1) (att + i + 1) := by
  intro bs
  induction bs with
  | nil =>
    intro k res rc ex att i hi
    simp at hi
  | cons b rest ih =>
    intro k res rc ex att i hi hstr hpre hfail
    have hb := hstr b (by simp)
    have hbne : ¬ (pyStrip b = []) := by
      rw [hb.1]
      exact hb.2
    unfold execLoop
    rw [if_neg hbne]
    cases i with
    | zero =>
      rcases hfail with hf | hf <;>
        simp only [Nat.add_zero] at hf <;> rw [hf] <;> simp [hb.1]
    | succ i' =>
      have hi' : i' < rest.length := Nat.lt_of_succ_lt_succ (by simpa using hi)
      have hstr' : ∀ b2 ∈ rest, pyStrip b2 = b2 ∧ b2 ≠ [] :=
        fun b2 hb2 => hstr b2 (by simp [hb2])
      have hpre' : ∀ j, j < i' → batchOk (env.batch (k + 1 + j)) := by
        intro j hj
        have h := hpre (j + 1) (Nat.succ_lt_succ hj)
        have harith : k + (j + 1) = k + 1 + j := by omega
        rwa [harith] at h
      have hfail' : env.batch (k + 1 + i') = .progError errStr code ∨
          env.batch (k + 1 + i') = .dbError errStr code := by
        have harith : k + (i' + 1) = k + 1 + i' := by omega
        rwa [harith] at hfail
      have hgoal : LoopOut.failedBatch errStr code (rest.get ⟨i', hi'⟩)
          (k + 1 + i' + 1) (att + 1 + i' + 1) =
          LoopOut.failedBatch errStr code ((b :: rest).get ⟨i' + 1, hi⟩)
          (k + (i' + 1) + 1) (att + (i' + 1) + 1) := by
        rw [show (b :: rest).get ⟨i' + 1, hi⟩ = rest.get ⟨i', hi'⟩ from rfl]
        congr 1 <;> omega
      have h0 := hpre 0 (Nat.succ_pos i')
      rcases h0 with ⟨rs, h0⟩ | ⟨rc0, h0⟩ <;>
        simp only [Nat.add_zero] at h0 <;> rw [h0]
      · exact (ih (k + 1) (some rs) rc (ex + 1) (att + 1) i' hi' hstr' hpre' hfail').trans
          hgoal
      · exact (ih (k + 1) res rc0 (ex + 1) (att + 1) i' hi' hstr' hpre' hfail').trans
          hgoal

/-- In the syntax-classified branch the message decomposes around the
`batch/total` index text and the 300-character batch prefix. -/
theorem analyze_syn_decomp (errStr : String) (errCode : Option String)
    (sqlBatch : String) (bn tot : Nat)
    (hna : authCond errStr = false) (hsy : synCond errStr = true) :
    (∃ p q : List Char, (analyze_sql_error errStr errCode sqlBatch bn tot).data =
      p ++ (batchIdxText bn tot).data ++ q) ∧
    (∃ p q : List Char, (analyze_sql_error errStr errCode sqlBatch bn tot).data =
      p ++ sqlBatch.data.take 300 ++ q) := by
  unfold analyze_sql_error
  rw [hna, hsy]
  simp only [Bool.false_eq_true, if_false, if_true]
  constructor
  · exact ⟨synMsgPre.data, (synMsgMid errStr errCode ++ sqlTrunc sqlBatch).data, by
      simp [String.data_append, List.append_assoc]⟩
  · refine ⟨(synMsgPre ++ batchIdxText bn tot ++ synMsgMid errStr errCode).data,
      (if sqlBatch.data.length > 300 then "..." else "" : String).data, ?_⟩
    simp [String.data_append, sqlTrunc, strTake, List.append_assoc]

/-- Claim C7 as amended: when batch `i` (1-based) is the first to raise a
database error, `execute_query` attempts exactly `i` batches (later
batches never run), returns failure with no results, and the message is
the classified error for that batch built from its 1-based index, the
total count and the full batch text; for syntax-classified errors the
message contains the index/total fragment and up to 300 (not 200)
characters of the batch text.  Authentication-classified messages omit
index, total and batch text (see the counterexample). -/
theorem claim_C7_first_error (env : DbEnv) (sql : String) (i : Nat) (errStr : String)
    (code : Option String)
    (hconn : env.connect = .ok)
    (hi : i < (split_sql_batches sql.data).length)
    (hpre : ∀ j, j < i → batchOk (env.batch j))
    (hfail : env.batch i = .progError errStr code ∨
      env.batch i = .dbError errStr code) :
    (execute_query env sql).attempted = i + 1 ∧
    (execute_query env sql).success = false ∧
    (execute_query env sql).results = none ∧
    (execute_query env sql).message =
      analyze_sql_error errStr code
        (String.mk ((split_sql_batches sql.data).get ⟨i, hi⟩)) (i + 1)
        (split_sql_batches sql.data).length ∧
    (authCond errStr = false → synCond errStr = true →
      ((∃ p q, (execute_query env sql).message.data =
          p ++ (batchIdxText (i + 1) (split_sql_batches sql.data).length).data ++ q) ∧
       (∃ p q, (execute_query env sql).message.data =
          p ++ ((split_sql_batches sql.data).get ⟨i, hi⟩).take 300 ++ q))) := by
  have hne : ¬ (split_sql_batches sql.data = []) := by
    intro h0
    rw [h0] at hi
    simp at hi
  have hloop := execLoop_first_error env errStr code (split_sql_batches sql.data) 0
    none 0 0 0 i hi (fun b hb => mem_split_sql_batches_stripped hb)
    (by simpa using hpre) (by simpa using hfail)
  have hres : execute_query env sql =
      { success := false,
        message := analyze_sql_error errStr code
          (String.mk ((split_sql_batches sql.data).get ⟨i, hi⟩)) (0 + i + 1)
          (split_sql_batches sql.data).length,
        results := none, attempted := 0 + i + 1, connOpened := true,
        connClosed := true } := by
    unfold execute_query
    rw [if_neg hne]
    simp only [hconn]
    rw [hloop]
  rw [hres]
  refine ⟨by simp, rfl, rfl, by simp, ?_⟩
  intro hna hsy
  have hd := analyze_syn_decomp errStr code
    (String.mk ((split_sql_batches sql.data).get ⟨i, hi⟩)) (i + 1)
    (split_sql_batches sql.data).length hna hsy
  simpa using hd

/-- Claim C7, counterexample: with three batches and the second failing
on an authentication-classified error, exactly two batches are attempted
(that part holds) — but the returned message contains no digit `2` and no
digit `3` at all, so it contains neither the 1-based batch index nor the
total batch count, and no batch text, contrary to the claim. -/
theorem claim_C7_counterexample :
    (execute_query envC7 "A\nGO\nB\nGO\nC").attempted = 2 ∧
    (execute_query envC7 "A\nGO\nB\nGO\nC").success = false ∧
    (split_sql_batches ("A\nGO\nB\nGO\nC".data)).length = 3 ∧
    ('2' ∉ (execute_query envC7 "A\nGO\nB\nGO\nC").message.data) ∧
    ('3' ∉ (execute_query envC7 "A\nGO\nB\nGO\nC").message.data) := by decide

/-- Witness for claim C7: one batch, failing immediately with a
syntax-classified error. -/
theorem claim_C7_witness :
    (execute_query envC7w "SELECT 1").attempted = 1 ∧
    (execute_query envC7w "SELECT 1").success = false :=
  have h := claim_C7_first_error envC7w "SELECT 1" 0 "42000 syntax error" none rfl
    (by decide) (fun j hj => absurd hj (Nat.not_lt_zero j)) (Or.inl rfl)
  ⟨h.1, h.2.1⟩

/-- Claim C9, evaluated at the failing input: on overall success and on a
per-batch pyodbc error the connection is closed before returning, but
when a batch raises a non-pyodbc exception the generic handler at lines
640-648 returns without closing the opened connection. -/
theorem claim_C9_connection_leak :
    ((execute_query { envC9 with batch := fun _ => .ddl 1 } "SELECT 1").connOpened = true ∧
     (execute_query { envC9 with batch := fun _ => .ddl 1 } "SELECT 1").connClosed = true) ∧
    ((execute_query { envC9 with batch := fun _ => .progError "42000" none }
        "SELECT 1").connOpened = true ∧
     (execute_query { envC9 with batch := fun _ => .progError "42000" none }
        "SELECT 1").connClosed = true) ∧
    ((execute_query envC9 "SELECT 1").connOpened = true ∧
     (execute_query envC9 "SELECT 1").connClosed = false ∧
     (execute_query envC9 "SELECT 1").success = false) := by decide

end OssGo
